import Mathlib

/-!
Verification of the ArrScripts monitor core (src/common.py, src/main.py).

Shallow embedding conventions:
* Python floats that carry times, sizes and thresholds are modelled as exact
  rationals; the repository only adds, subtracts, divides and compares them,
  so no rounding behaviour is load-bearing for the claims below.
* Python strings are modelled as Lean strings; character-level work is done
  on the underlying character list so that every definition evaluates by
  kernel reduction.
* Each clock read (TimeStamp.now) inside one pass of the loop body is
  modelled by the single instant `now` given to the pass.
* Network calls that remediate an item are modelled as values of
  `RemediationAction` collected in the order the source schedules them.
-/

namespace ArrScripts

/-- Python str.split(sep) for a one-character separator, on the character
list of the string: "a::b".split(":") gives ["a", "", "b"] and "".split(":")
gives [""]. -/
def splitOnChar (sep : Char) : List Char → List (List Char)
  | [] => [[]]
  | c :: cs =>
    let rest := splitOnChar sep cs
    if c = sep then [] :: rest
    else
      match rest with
      | [] => [[c]]
      | r :: rs => (c :: r) :: rs

/-- Value of a decimal digit character, none for any other character. -/
def digitVal (c : Char) : Option Nat :=
  if '0' ≤ c ∧ c ≤ '9' then some (c.toNat - '0'.toNat) else none

/-- Accumulating decimal read of a digit list. -/
def digitsToNatAux : List Char → Nat → Option Nat
  | [], acc => some acc
  | c :: cs, acc =>
    match digitVal c with
    | some d => digitsToNatAux cs (acc * 10 + d)
    | none => none

/-- Nonempty all-digit character list read as a natural number. -/
def digitsToNat : List Char → Option Nat
  | [] => none
  | c :: cs => digitsToNatAux (c :: cs) 0

/-- Python float(s) on the fragment of float syntax the repository's data
uses: an optional leading minus sign, then decimal digits with an optional
fractional digit part ("2", "02", "40.5"); any other shape is a ValueError,
modelled as none.  The value is exact: the floats the repository feeds
through this path are parsed and compared, never rounded in a way a claim
depends on. -/
def parsePyFloat (cs : List Char) : Option ℚ :=
  let core : List Char → Option ℚ := fun t =>
    match splitOnChar '.' t with
    | [a] => (digitsToNat a).map (fun n => (n : ℚ))
    | [a, b] =>
      match digitsToNat a, digitsToNat b with
      | some x, some y => some ((x : ℚ) + (y : ℚ) / ((10 : ℚ) ^ b.length))
      | _, _ => none
    | _ => none
  match cs with
  | '-' :: t => (core t).map (fun q => -q)
  | _ => core cs

/-- Python list(map(float, parts)): every part must parse or the map
raises, modelled as none. -/
def mapParsePyFloat : List (List Char) → Option (List ℚ)
  | [] => some []
  | p :: ps =>
    match parsePyFloat p, mapParsePyFloat ps with
    | some q, some qs => some (q :: qs)
    | _, _ => none

/-- hms_to_secs from src/common.py: split on ":", map float over every part
(any malformed part raises, modelled as none), then parts[0]*3600 +
parts[1]*60 + parts[2]; fewer than three parts raises IndexError, modelled
as none; extra parts are ignored. -/
def hms_to_secs (s : String) : Option ℚ :=
  match mapParsePyFloat (splitOnChar ':' s.data) with
  | some (p0 :: p1 :: p2 :: _) => some (p0 * 3600 + p1 * 60 + p2)
  | _ => none

/-- Python str(x) for a float x whose value is the nonnegative integer n:
the shortest round-trip representation "n.0". -/
def pyFloatStr (n : Nat) : String := toString n ++ ".0"

/-- sec_to_hms from src/common.py applied to a float argument of
nonnegative integral value (the shape produced by hms_to_secs on a
"HH:MM:SS" digit string): divmod splits the value into integral-float
hours, minutes and seconds, and each f-string field asks for minimum width
2 with zero fill, but str of such a float ("2.0") is already at least
three characters wide, so no padding is ever applied and the float
rendering appears verbatim. -/
def sec_to_hms_intFloat (seconds : Nat) : String :=
  pyFloatStr (seconds / 3600) ++ ":" ++ pyFloatStr (seconds % 3600 / 60)
    ++ ":" ++ pyFloatStr (seconds % 60)

/-- TimeStamp.__str__ composed over the integral-valued nonnegative case:
the stored scalar is rendered by sec_to_hms.  A value outside the case
split handled by sec_to_hms_intFloat is left unmodelled (none); the
round-trip claim only exercises the integral case. -/
def toDurationString (q : ℚ) : Option String :=
  if 0 ≤ q ∧ q.den = 1 then some (sec_to_hms_intFloat q.num.toNat) else none

/-- Python substring test (pat in s) on character lists. -/
def containsSub (pat : List Char) : List Char → Bool
  | [] => pat.isEmpty
  | c :: cs => List.isPrefixOf pat (c :: cs) || containsSub pat cs

/-- Python substring test (pat in s) on strings. -/
def strContains (s pat : String) : Bool := containsSub pat.data s.data

/-! ## Data model (src/common.py) -/

/-- Language from src/common.py. -/
structure Language where
  id : Int
  name : Option String
deriving DecidableEq, Repr

/-- Quality from src/common.py. -/
structure Quality where
  id : Int
  resolution : Int
  source : String
  name : Option String
deriving DecidableEq, Repr

/-- QualityModel from src/common.py. -/
structure QualityModel where
  quality : Quality
deriving DecidableEq, Repr

/-- MovieResource from src/common.py. -/
structure MovieResource where
  id : Int
  title : Option String
deriving DecidableEq, Repr

/-- SeriesResource from src/common.py. -/
structure SeriesResource where
  id : Int
  title : Option String
deriving DecidableEq, Repr

/-- One entry of QueueResource.statusMessages: a dict whose "title" key is
read with dict.get("title", None), modelled as the optional title field. -/
structure StatusMessage where
  title : Option String
deriving DecidableEq, Repr

/-- QueueResource from src/common.py.  `size` is a float, modelled as an
exact rational.  `added` carries an ISO-8601 instant in the source; it is
modelled by the numeric value (epoch seconds) that iso8601_to_secs parses
it to, since the source only ever uses that value. -/
structure QueueResource where
  id : Int
  movieId : Int
  size : ℚ
  languages : List Language
  status : Option String
  sizeleft : Option Int
  timeleft : Option String
  errorMessage : Option String
  statusMessages : List StatusMessage
  title : Option String
  added : Option ℚ
  movie : Option MovieResource
  series : Option SeriesResource
deriving DecidableEq, Repr

/-- QueueResource.get_title_or_id. -/
def QueueResource.get_title_or_id (q : QueueResource) : String :=
  match q.title with
  | some t => t
  | none => toString q.id

/-- QueueResource.has_error: the error message is present. -/
def QueueResource.hasErrorB (q : QueueResource) : Bool := q.errorMessage.isSome

/-- QueueResource.is_finished: string-equal timeleft "00:00:00", sizeleft 0
and status "completed" (a None field never equals the literal). -/
def QueueResource.isFinishedB (q : QueueResource) : Bool :=
  q.timeleft == some "00:00:00" && q.sizeleft == some 0 && q.status == some "completed"

/-- The literal title that marks a failed import. -/
def failedImportTitle : String :=
  "One or more movies expected in this release were not imported or missing"

/-- QueueResource.failed_to_import: some status message whose title equals
the fixed literal. -/
def QueueResource.failedToImportB (q : QueueResource) : Bool :=
  q.statusMessages.any (fun m => m.title == some failedImportTitle)

/-- QueueResourcePagingResource from src/common.py. -/
structure QueueResourcePagingResource where
  records : List QueueResource
deriving DecidableEq, Repr

/-- QueueResourcePagingResource.get_record_from_id: first record with the
given id, none otherwise. -/
def QueueResourcePagingResource.get_record_from_id
    (q : QueueResourcePagingResource) (record_id : Int) : Option QueueResource :=
  q.records.find? (fun rec => rec.id == record_id)

/-- ReleaseResource from src/common.py. -/
structure ReleaseResource where
  quality : QualityModel
  indexerId : Int
  seeders : Option Int
  leechers : Option Int
  languages : List Language
  rejections : List String
  guid : Option String
deriving DecidableEq, Repr

/-! ## Persisted record model (src/main.py) -/

/-- RadarrSonarrMonitor.MovieRecord.  error_time is persisted as the
HH:MM:SS rendering of the epoch scalar and re-parsed by TimeStamp(str);
the rendering is value-exact, so the model keeps the scalar itself. -/
structure MovieRecord where
  title : String
  id : Int
  error_time : Option ℚ
  num_timeleft_samples : Int
  num_timeleft_samples_exceeding_max : Int
deriving DecidableEq, Repr

/-- RadarrSonarrMonitor.Record.  lastRun is kept as the numeric instant. -/
structure Record where
  lastRun : ℚ
  curIter : Int
  movies : List MovieRecord
deriving DecidableEq, Repr

/-- Record.get_record_from_id: first movie record with the given id. -/
def Record.get_record_from_id (r : Record) (movie_id : Int) : Option MovieRecord :=
  r.movies.find? (fun m => m.id == movie_id)

/-- MonitorConfig from src/main.py, restricted to the fields the decision
logic reads (paths, endpoint, key and log size only feed I/O). -/
structure MonitorConfig where
  run_interval_secs : ℚ
  max_media_size_bytes : ℚ
  max_download_time_secs : ℚ
  max_err_time_secs : ℚ
  reap_interval_secs : ℚ
  hopeless_threshold : ℚ
  warmup_time_secs : ℚ
deriving DecidableEq, Repr

/-! ## Reconciler (RecordScope._sync_record, src/main.py lines 123-138) -/

/-- The first loop of _sync_record: for every queue record whose id is not
yet tracked and whose timeleft is present, append a fresh MovieRecord
(title from the item, zeroed counters, no error time).  The membership test
runs against the list as it grows, exactly like the Python loop that
appends to the list it reads. -/
def syncAddNew (queue : QueueResourcePagingResource) (movies : List MovieRecord) :
    List MovieRecord :=
  queue.records.foldl
    (fun ms rec =>
      if (ms.find? (fun m => m.id == rec.id)).isNone then
        if rec.timeleft.isSome then
          ms ++ [{ title := rec.get_title_or_id, id := rec.id, error_time := none,
                   num_timeleft_samples := 0, num_timeleft_samples_exceeding_max := 0 }]
        else ms
      else ms)
    movies

/-- Python list.remove(x): delete the first element equal to x (dataclass
equality compares every field).  The source only calls it with an element
read from the list, so the x-not-found ValueError cannot occur. -/
def pyListRemove (x : MovieRecord) : List MovieRecord → List MovieRecord
  | [] => []
  | y :: ys => if y = x then ys else y :: pyListRemove x ys

/-- The second loop of _sync_record.  Python iterates by position over the
very list it mutates: the iterator fetches movies[i], advances to i+1, and
list.remove shifts the later elements one slot left, so the element that
followed a removed one is never visited.  `fuel` bounds the number of loop
steps; sync_record passes the list length, which the loop can never use up
because the position grows by one each step and the list never grows. -/
def syncRemoveStale (queue : QueueResourcePagingResource) :
    Nat → List MovieRecord → Nat → List MovieRecord
  | 0, movies, _ => movies
  | fuel + 1, movies, i =>
    match movies.get? i with
    | none => movies
    | some m =>
      if (queue.get_record_from_id m.id).isNone then
        syncRemoveStale queue fuel (pyListRemove m movies) (i + 1)
      else
        syncRemoveStale queue fuel movies (i + 1)

/-- RecordScope._sync_record on the movie list: first add newly observed
queue items, then walk the list removing the stale ones. -/
def sync_record (queue : QueueResourcePagingResource) (movies : List MovieRecord) :
    List MovieRecord :=
  let added := syncAddNew queue movies
  syncRemoveStale queue added.length added 0

/-! ## Remediation actions -/

/-- One remediation request scheduled by the loop body.  Fields of
removeFromQueue follow the keyword arguments of _remove_media_from_queue. -/
inductive RemediationAction where
  | removeFromQueue (movie_id : Int)
      (redownload remove_from_client blocklist change_category : Bool)
  | clearBlocklist (movie_id : Option Int)
  | manualSearch (movie_id : Int)
deriving DecidableEq, Repr

/-- _remove_media_from_queue: DELETE queue/movie_id with the given flags. -/
def removeMediaFromQueue (movie_id : Int)
    (redownload remove_from_client blocklist change_category : Bool) :
    RemediationAction :=
  RemediationAction.removeFromQueue movie_id redownload remove_from_client
    blocklist change_category

/-- _reap_media: clear the blocklist scoped to the queue record's owning
movie id, then search for the movie manually (src/main.py lines 218-223). -/
def reapMedia (q : QueueResource) : List RemediationAction :=
  [RemediationAction.clearBlocklist (some q.movieId),
   RemediationAction.manualSearch q.movieId]

/-! ## Candidate selector (search_movie_manually, src/main.py lines 225-295) -/

/-- Python truthiness of the optional seeder count: None and 0 are falsy. -/
def seedersTruthy : Option Int → Bool
  | none => false
  | some n => n != 0

/-- A rejection string that mentions "blocklisted" or "Unknown Movie"
makes the release skipped (the inner rejection loop raises Break). -/
def releaseRejected (r : ReleaseResource) : Bool :=
  r.rejections.any (fun rej => strContains rej "blocklisted" || strContains rej "Unknown Movie")

/-- The language check: some release language is either the unknown
sentinel (id 0) or equal to one of the queue record's languages. -/
def hasValidLang (qlangs : List Language) (r : ReleaseResource) : Bool :=
  r.languages.any (fun lang => lang.id == 0 || qlangs.contains lang)

/-- A release survives every filter of the selection loop: guid present,
seeders present and nonzero, no blocklist or "Unknown Movie" rejection,
and a valid language. -/
def releaseSurvives (q : QueueResource) (r : ReleaseResource) : Bool :=
  r.guid.isSome && seedersTruthy r.seeders && !(releaseRejected r)
    && hasValidLang q.languages r

/-- comp from search_movie_manually: Python tuple comparison
(r1.seeders, r1.quality.quality.resolution) < (r2.seeders, ...).  Both
arguments are surviving candidates, so seeders is a present integer; getD
only discharges the option. -/
def releaseComp (r1 r2 : ReleaseResource) : Bool :=
  decide (r1.seeders.getD 0 < r2.seeders.getD 0)
    || (decide (r1.seeders.getD 0 = r2.seeders.getD 0)
        && decide (r1.quality.quality.resolution < r2.quality.quality.resolution))

/-- One step of the best_candidate fold: a non-survivor leaves the held
best unchanged; a survivor replaces it only when it is strictly greater
(if not best_candidate or comp(best_candidate, res)). -/
def selectStep (q : QueueResource) (best : Option ReleaseResource)
    (r : ReleaseResource) : Option ReleaseResource :=
  if releaseSurvives q r then
    match best with
    | none => some r
    | some b => if releaseComp b r then some r else some b
  else best

/-- The selection loop of search_movie_manually over the fetched release
list, starting from best_candidate = None. -/
def selectBest (q : QueueResource) (rs : List ReleaseResource) :
    Option ReleaseResource :=
  rs.foldl (selectStep q) none

/-- The acquisition request search_movie_manually issues at the end: the
selected candidate's guid and indexer id, guarded by Python truthiness of
both best_candidate and best_candidate.guid (an empty-string guid fails
the guard and nothing is requested). -/
def manualSearchRequest (q : QueueResource) (rs : List ReleaseResource) :
    Option (String × Int) :=
  match selectBest q rs with
  | none => none
  | some b =>
    match b.guid with
    | none => none
    | some g => if g = "" then none else some (g, b.indexerId)

/-! ## Decision engine (RadarrSonarrMonitor._run loop body, lines 297-390) -/

/-- TimeStamp.create with only the iso8601 keyword: parses the ISO string
(modelled by its numeric value); when the argument is None every branch of
create is skipped and the freshly constructed wall-clock timestamp (now)
is returned unchanged. -/
def timeStampCreateIso (now : ℚ) (iso : Option ℚ) : ℚ := iso.getD now

/-- Lines 358-362: parse timeleft as a duration; if it exceeds
max_download_time_secs increment the exceeding counter, else increment the
total-samples counter. -/
def sampleUpdate (cfg : MonitorConfig) (t : ℚ) (m : MovieRecord) : MovieRecord :=
  if t > cfg.max_download_time_secs then
    { m with num_timeleft_samples_exceeding_max :=
        m.num_timeleft_samples_exceeding_max + 1 }
  else
    { m with num_timeleft_samples := m.num_timeleft_samples + 1 }

/-- Line 364-367: the warmup gate guarding the hopelessness ratio.  Python
compares the int counter with the float floor-division
warmup_time_secs // run_interval_secs; over exact rationals that is the
integer floor of the quotient (run_interval_secs = 0 raises in Python and
is excluded by every claim that touches this gate). -/
def hopelessWarmupGate (cfg : MonitorConfig) (n : Int) : Bool :=
  decide (⌊cfg.warmup_time_secs / cfg.run_interval_secs⌋ ≤ n)

/-- One pass of the loop body of RadarrSonarrMonitor._run for a tracked
movie record with its matching queue record: returns the updated record
and the remediation requests scheduled for this item, in scheduling order;
none models an exception escaping the pass (an unparseable timeleft string
or the ZeroDivisionError of the hopelessness ratio). -/
def runStep (cfg : MonitorConfig) (now : ℚ) (m : MovieRecord) (q : QueueResource) :
    Option (MovieRecord × List RemediationAction) :=
  if q.hasErrorB then
    match m.error_time with
    | some t =>
      if now - t > cfg.max_err_time_secs then
        some (m, [removeMediaFromQueue q.id true true true false])
      else
        some (m, [])
    | none => some ({ m with error_time := some now }, [])
  else if q.isFinishedB && q.failedToImportB then
    some (m, [removeMediaFromQueue q.id false true false false])
  else
    match q.timeleft with
    | none => some (m, [])
    | some tl =>
      if q.size > cfg.max_media_size_bytes then
        some (m, [removeMediaFromQueue q.id true true true false])
      else
        match hms_to_secs tl with
        | none => none
        | some t =>
          let m2 := sampleUpdate cfg t m
          let reapActs : List RemediationAction :=
            if now - timeStampCreateIso now q.added > cfg.reap_interval_secs then
              reapMedia q
            else []
          if hopelessWarmupGate cfg m2.num_timeleft_samples then
            if m2.num_timeleft_samples = 0 then none
            else if (m2.num_timeleft_samples_exceeding_max : ℚ)
                / (m2.num_timeleft_samples : ℚ) > cfg.hopeless_threshold then
              some (m2, removeMediaFromQueue q.id true true true false :: reapActs)
            else some (m2, reapActs)
          else some (m2, reapActs)

/-! ## Concrete instances used by counterexamples and witnesses -/

/-- A fresh tracked record as the Reconciler creates it, id 1. -/
def recA : MovieRecord :=
  { title := "a", id := 1, error_time := none,
    num_timeleft_samples := 0, num_timeleft_samples_exceeding_max := 0 }

/-- A fresh tracked record as the Reconciler creates it, id 2. -/
def recB : MovieRecord :=
  { title := "b", id := 2, error_time := none,
    num_timeleft_samples := 0, num_timeleft_samples_exceeding_max := 0 }

/-- A queue snapshot with no records: every tracked record is stale. -/
def emptyQueue : QueueResourcePagingResource := { records := [] }

/-- The configuration of the hopelessness claim: warmup 60s, interval 30s
(warmup sample count 2), hopeless threshold one half; download time is
capped at 10s so the one-hour timeleft samples below exceed it, and the
size and error and reap limits are large enough to stay inert. -/
def cfgHop : MonitorConfig :=
  { run_interval_secs := 30, max_media_size_bytes := 1000000000,
    max_download_time_secs := 10, max_err_time_secs := 100,
    reap_interval_secs := 1000000, hopeless_threshold := 1/2,
    warmup_time_secs := 60 }

/-- A queue item whose timeleft sample (one hour) exceeds the 10s cap:
no error, not finished, modest size, freshly added. -/
def qExceed : QueueResource :=
  { id := 5, movieId := 6, size := 0, languages := [], status := none,
    sizeleft := none, timeleft := some "01:00:00", errorMessage := none,
    statusMessages := [], title := none, added := some 1000,
    movie := none, series := none }

/-- The same queue item with a one-second timeleft sample, below the cap. -/
def qBelow : QueueResource :=
  { qExceed with timeleft := some "00:00:01" }

/-- The tracked record of qExceed before any sample. -/
def hopRec0 : MovieRecord :=
  { title := "m", id := 5, error_time := none,
    num_timeleft_samples := 0, num_timeleft_samples_exceeding_max := 0 }

/-- A queue item carrying an error message, far past its reap age. -/
def qErr : QueueResource :=
  { id := 3, movieId := 4, size := 5, languages := [], status := none,
    sizeleft := none, timeleft := some "00:10:00",
    errorMessage := some "boom", statusMessages := [], title := none,
    added := some 0, movie := none, series := none }

/-- The unknown-language sentinel. -/
def lang0 : Language := { id := 0, name := none }

/-- A concrete original language. -/
def langEn : Language := { id := 1, name := some "English" }

/-- A quality model of the given resolution. -/
def qualOf (r : Int) : QualityModel :=
  { quality := { id := 1, resolution := r, source := "webdl", name := none } }

/-- The queue record whose languages drive the selector examples. -/
def qSel : QueueResource :=
  { id := 8, movieId := 9, size := 0, languages := [langEn], status := none,
    sizeleft := none, timeleft := some "00:30:00", errorMessage := none,
    statusMessages := [], title := none, added := some 0,
    movie := none, series := none }

/-- Candidate with 5 seeders at 1080p in the original language. -/
def relA : ReleaseResource :=
  { quality := qualOf 1080, indexerId := 1, seeders := some 5,
    leechers := some 0, languages := [langEn], rejections := [],
    guid := some "gA" }

/-- Candidate with 10 seeders at 720p in the unknown language. -/
def relB : ReleaseResource :=
  { quality := qualOf 720, indexerId := 2, seeders := some 10,
    leechers := some 0, languages := [lang0], rejections := [],
    guid := some "gB" }

/-- Candidate whose guid is the empty string: present for the filter at
the top of the loop, falsy for the final acquisition guard. -/
def relEmptyGuid : ReleaseResource :=
  { quality := qualOf 720, indexerId := 7, seeders := some 3,
    leechers := some 0, languages := [lang0], rejections := [],
    guid := some "" }

/-- The configuration for the witness where hopelessness and reap fire in
a single pass: warmup sample count 1, reap age 100s. -/
def cfgBoth : MonitorConfig :=
  { run_interval_secs := 30, max_media_size_bytes := 1000000000,
    max_download_time_secs := 10, max_err_time_secs := 100,
    reap_interval_secs := 100, hopeless_threshold := 1/2,
    warmup_time_secs := 30 }

/-- A record that already holds one sample of each kind. -/
def recBoth : MovieRecord :=
  { title := "m", id := 5, error_time := none,
    num_timeleft_samples := 1, num_timeleft_samples_exceeding_max := 1 }

/-- The qExceed item with an added timestamp 1000s in the past, so that a
pass at instant 1000 is past the 100s reap age of cfgBoth. -/
def qExceedOld : QueueResource := { qExceed with added := some 0 }

/-- The tracked record of qErr before any error was observed; the nonzero
sample counters witness that the error branch leaves them alone. -/
def recErr : MovieRecord :=
  { title := "e", id := 3, error_time := none,
    num_timeleft_samples := 7, num_timeleft_samples_exceeding_max := 4 }

/-- hopRec0 after one exceeding sample. -/
def hopRecE1 : MovieRecord := { hopRec0 with num_timeleft_samples_exceeding_max := 1 }

/-- hopRec0 after two exceeding samples. -/
def hopRecE2 : MovieRecord := { hopRec0 with num_timeleft_samples_exceeding_max := 2 }

/-- hopRec0 after one below-cap sample. -/
def hopRecB1 : MovieRecord := { hopRec0 with num_timeleft_samples := 1 }

/-- hopRec0 after two below-cap samples. -/
def hopRecB2 : MovieRecord := { hopRec0 with num_timeleft_samples := 2 }

/-- hopRec0 after two below-cap samples and one exceeding sample. -/
def hopRecB2E1 : MovieRecord := { hopRecB2 with num_timeleft_samples_exceeding_max := 1 }

/-- hopRec0 after two below-cap samples and two exceeding samples. -/
def hopRecB2E2 : MovieRecord := { hopRecB2 with num_timeleft_samples_exceeding_max := 2 }

/-- recErr with the error-start time the pass at instant 10000000 sets. -/
def recErrSet : MovieRecord := { recErr with error_time := some 10000000 }

/-! ## Theorems -/

/-- C1 (counterexample): with warmup_time_secs 60, run_interval_secs 30
and hopeless_threshold one half, an item whose timeleft sample exceeds
max_download_time_secs on each of two consecutive iterations, and that
takes no earlier branch, issues no remediation on either iteration —
contrary to the claim that the blocklist+redownload remediation fires with
ratio 1 once the warmup sample count 2 is reached: exceeding samples do
not advance num_timeleft_samples, the only counter the warmup gate reads,
so the gate is never met. -/
theorem C1_counterexample :
    runStep cfgHop 1000 hopRec0 qExceed = some (hopRecE1, [])
    ∧ runStep cfgHop 1000 hopRecE1 qExceed = some (hopRecE2, []) := by
  constructor <;>
  · simp +decide [runStep, qExceed, cfgHop, hopRec0, hopRecE1, hopRecE2,
      QueueResource.hasErrorB, QueueResource.isFinishedB,
      QueueResource.failedToImportB, hms_to_secs, mapParsePyFloat,
      parsePyFloat, splitOnChar, digitsToNat, digitsToNatAux, digitVal,
      sampleUpdate, hopelessWarmupGate, timeStampCreateIso, reapMedia,
      removeMediaFromQueue]
    norm_num

/-- C1 (amended): under warmup_time_secs 60, run_interval_secs 30 (warmup
sample count 2) and hopeless_threshold one half, only samples at or below
max_download_time_secs advance the warmup counter, so the two-exceeding
run of the original claim never remediates; an item sampled below the cap
twice and then above it twice takes the blocklist+redownload remediation
exactly on the fourth iteration, where the warmup count 2 is met and the
ratio 2/2 = 1 exceeds the threshold, the first three passes issuing
nothing. -/
theorem C1_amended :
    runStep cfgHop 1000 hopRec0 qBelow = some (hopRecB1, [])
    ∧ runStep cfgHop 1000 hopRecB1 qBelow = some (hopRecB2, [])
    ∧ runStep cfgHop 1000 hopRecB2 qExceed = some (hopRecB2E1, [])
    ∧ runStep cfgHop 1000 hopRecB2E1 qExceed
      = some (hopRecB2E2, [removeMediaFromQueue 5 true true true false]) := by
  refine ⟨?_, ?_, ?_, ?_⟩ <;>
  · simp +decide [runStep, qExceed, qBelow, cfgHop, hopRec0, hopRecB1,
      hopRecB2, hopRecB2E1, hopRecB2E2, QueueResource.hasErrorB,
      QueueResource.isFinishedB, QueueResource.failedToImportB, hms_to_secs,
      mapParsePyFloat, parsePyFloat, splitOnChar, digitsToNat, digitsToNatAux,
      digitVal, sampleUpdate, hopelessWarmupGate, timeStampCreateIso,
      reapMedia, removeMediaFromQueue]
    try norm_num

/-- C2 (code bug): reconciling the tracked records of ids 1 and 2 against
an empty queue snapshot leaves the id 2 record in place even though its id
is absent from the snapshot: the stale-removal loop iterates by position
over the list it shrinks, so the record after each removed one is never
visited. -/
theorem C2_eval :
    sync_record emptyQueue [recA, recB] = [recB]
    ∧ emptyQueue.get_record_from_id recB.id = none := by
  decide

/-- C3 (code bug): the reconciler is not idempotent: on the record set of
ids 1 and 2 with an empty snapshot, one application leaves [recB] and a
second application removes it, so running it twice differs from running it
once. -/
theorem C3_eval :
    sync_record emptyQueue (sync_record emptyQueue [recA, recB])
      ≠ sync_record emptyQueue [recA, recB] := by
  decide

/-- C7 (code bug): parsing the duration string "02:03:04" and rendering it
back yields "2.0:3.0:4.0", not "02:03:04": hms_to_secs maps float over the
parts, so sec_to_hms receives a float, divmod keeps every component a
float, and a float formatted with minimum width 2 and zero fill renders as
str of the float ("2.0"), never zero-padded to two digits. -/
theorem C7_eval :
    (hms_to_secs "02:03:04").bind toDurationString = some "2.0:3.0:4.0"
    ∧ (hms_to_secs "02:03:04").bind toDurationString ≠ some "02:03:04" := by
  have h : hms_to_secs "02:03:04" = some 7384 := by
    simp +decide [hms_to_secs, mapParsePyFloat, parsePyFloat, splitOnChar,
      digitsToNat, digitsToNatAux, digitVal]
    norm_num
  rw [h]
  constructor
  · simp +decide [toDurationString, sec_to_hms_intFloat, pyFloatStr]
  · simp +decide [toDurationString, sec_to_hms_intFloat, pyFloatStr]

/-- C5 (counterexample): a candidate whose guid is the empty string
survives every filter of the selection loop (its guid is present, it has
seeders and a valid language and no rejection), is selected as the
strictly greatest survivor, and yet no acquisition request is issued,
because the final guard also tests Python truthiness of the guid string —
contrary to the claim that the greatest surviving candidate is acquired. -/
theorem C5_counterexample :
    releaseSurvives qSel relEmptyGuid = true
    ∧ selectBest qSel [relEmptyGuid] = some relEmptyGuid
    ∧ manualSearchRequest qSel [relEmptyGuid] = none := by
  decide

/-- C6 (counterexample): a tracked item with a matching queue record whose
age exceeds reap_interval_secs is not reaped on a pass in which its queue
record carries an error message: the error branch ends the pass for the
item before the reap check runs, so the pass only records the error-start
time and issues nothing — contrary to the claim that the reap check is
independent of all preceding branches. -/
theorem C6_counterexample :
    10000000 - timeStampCreateIso 10000000 qErr.added > cfgHop.reap_interval_secs
    ∧ runStep cfgHop 10000000 recErr qErr = some (recErrSet, []) := by
  constructor
  · simp +decide [timeStampCreateIso, qErr, cfgHop]
    try norm_num
  · simp +decide [runStep, qErr, cfgHop, recErr, recErrSet,
      QueueResource.hasErrorB]

/-- C4: for a tracked item whose queue record carries an error message,
one pass with an unset error-start time stores the instant of that pass
and issues no remediation, and one pass with a stored error-start time
whose age exceeds max_err_time_secs issues exactly the single
blocklist+redownload request (remove from queue with blocklist and
redownload set) while leaving the record unchanged. -/
theorem C4_thm (cfg : MonitorConfig) (now : ℚ) (m : MovieRecord)
    (q : QueueResource) (he : q.hasErrorB = true) :
    (m.error_time = none →
      runStep cfg now m q = some ({ m with error_time := some now }, []))
    ∧ (∀ t : ℚ, m.error_time = some t → now - t > cfg.max_err_time_secs →
      runStep cfg now m q
        = some (m, [removeMediaFromQueue q.id true true true false])) := by
  constructor
  · intro h
    simp [runStep, he, h]
  · intro t ht hgt
    simp [runStep, he, ht, hgt]

/-- C4 witness: the error pass at instant 10000000 on qErr records that
instant, and the pass at 20000000 with the stored instant 10000000 (older
than the 100s limit) issues the blocklist+redownload request. -/
theorem C4_witness :
    runStep cfgHop 10000000 recErr qErr = some (recErrSet, [])
    ∧ runStep cfgHop 20000000 recErrSet qErr
      = some (recErrSet, [removeMediaFromQueue 3 true true true false]) := by
  constructor
  · exact (C4_thm cfgHop 10000000 recErr qErr (by decide)).1 rfl
  · exact (C4_thm cfgHop 20000000 recErrSet qErr (by decide)).2 10000000 rfl
      (by norm_num [cfgHop])

/-- C8: a pass on a tracked item whose queue record carries an error
message never evaluates a later branch: both time-remaining sample
counters are unchanged, and the scheduled actions are either nothing or
the single error remediation — in particular no remove-without-redownload
request (failed import), no clear-blocklist and no manual-search request
(reap) is issued for the item in that iteration. -/
theorem C8_thm (cfg : MonitorConfig) (now : ℚ) (m m2 : MovieRecord)
    (q : QueueResource) (acts : List RemediationAction)
    (he : q.hasErrorB = true)
    (hrun : runStep cfg now m q = some (m2, acts)) :
    m2.num_timeleft_samples = m.num_timeleft_samples
    ∧ m2.num_timeleft_samples_exceeding_max = m.num_timeleft_samples_exceeding_max
    ∧ (acts = [] ∨ acts = [removeMediaFromQueue q.id true true true false]) := by
  cases hm : m.error_time with
  | none =>
    rw [(C4_thm cfg now m q he).1 hm] at hrun
    obtain ⟨h1, h2⟩ := by simpa using hrun
    subst h1; subst h2
    exact ⟨rfl, rfl, Or.inl rfl⟩
  | some t =>
    by_cases hgt : now - t > cfg.max_err_time_secs
    · rw [(C4_thm cfg now m q he).2 t hm hgt] at hrun
      obtain ⟨h1, h2⟩ := by simpa using hrun
      subst h1; subst h2
      exact ⟨rfl, rfl, Or.inr rfl⟩
    · have hr : runStep cfg now m q = some (m, []) := by
        simp [runStep, he, hm, hgt]
      rw [hr] at hrun
      obtain ⟨h1, h2⟩ := by simpa using hrun
      subst h1; subst h2
      exact ⟨rfl, rfl, Or.inl rfl⟩

/-- C8 witness: the error pass on qErr with the fresh record recErr keeps
both counters (7 and 4) and schedules nothing. -/
theorem C8_witness :
    recErrSet.num_timeleft_samples = recErr.num_timeleft_samples
    ∧ recErrSet.num_timeleft_samples_exceeding_max
      = recErr.num_timeleft_samples_exceeding_max
    ∧ (([] : List RemediationAction) = []
       ∨ ([] : List RemediationAction)
         = [removeMediaFromQueue qErr.id true true true false]) :=
  C8_thm cfgHop 10000000 recErr recErrSet qErr [] (by decide)
    (by simp +decide [runStep, qErr, cfgHop, recErr, recErrSet,
      QueueResource.hasErrorB])

/-- C9: the sample-accumulation step increments exactly one of the two
counters by one: the exceeding counter precisely when the parsed
time-remaining exceeds max_download_time_secs, the total-samples counter
precisely otherwise; their sum always grows by exactly one, so an
exceeding sample is never also added to the total count. -/
theorem C9_thm (cfg : MonitorConfig) (t : ℚ) (m : MovieRecord) :
    (sampleUpdate cfg t m).num_timeleft_samples
        + (sampleUpdate cfg t m).num_timeleft_samples_exceeding_max
      = m.num_timeleft_samples + m.num_timeleft_samples_exceeding_max + 1
    ∧ ((sampleUpdate cfg t m).num_timeleft_samples_exceeding_max
        = m.num_timeleft_samples_exceeding_max + 1
      ↔ t > cfg.max_download_time_secs)
    ∧ ((sampleUpdate cfg t m).num_timeleft_samples = m.num_timeleft_samples + 1
      ↔ ¬ t > cfg.max_download_time_secs) := by
  by_cases h : t > cfg.max_download_time_secs <;>
    refine ⟨?_, ?_, ?_⟩ <;> simp [sampleUpdate, h] <;> omega

/-- C9 witness: a one-hour sample against the 10s cap bumps only the
exceeding counter of the fresh record. -/
theorem C9_witness :
    (sampleUpdate cfgHop 3600 hopRec0).num_timeleft_samples_exceeding_max
      = hopRec0.num_timeleft_samples_exceeding_max + 1 :=
  (C9_thm cfgHop 3600 hopRec0).2.1.mpr (by norm_num [cfgHop])

/-- C10: the hopelessness ratio is guarded by the warmup gate, whose
threshold is at least one for every configuration with a positive run
interval no longer than the warmup time, so the ratio's divisor
num_timeleft_samples is at least one whenever the division runs and the
pass can never fail — runStep returns a value on every queue record whose
time-remaining, if present, parses (the only other failure source). -/
theorem C10_thm (cfg : MonitorConfig) (now : ℚ) (m : MovieRecord)
    (q : QueueResource)
    (h1 : 0 < cfg.run_interval_secs)
    (h2 : cfg.run_interval_secs ≤ cfg.warmup_time_secs)
    (hp : ∀ tl, q.timeleft = some tl → (hms_to_secs tl).isSome = true) :
    (runStep cfg now m q).isSome = true
    ∧ ∀ k : Int, hopelessWarmupGate cfg k = true → 1 ≤ k := by
  have hg : ∀ k : Int, hopelessWarmupGate cfg k = true → 1 ≤ k := by
    intro k hk
    have h3 : (1 : ℚ) ≤ cfg.warmup_time_secs / cfg.run_interval_secs :=
      (one_le_div h1).mpr h2
    have h4 : (1 : Int) ≤ ⌊cfg.warmup_time_secs / cfg.run_interval_secs⌋ :=
      Int.le_floor.mpr (by exact_mod_cast h3)
    have h5 : ⌊cfg.warmup_time_secs / cfg.run_interval_secs⌋ ≤ k :=
      of_decide_eq_true hk
    omega
  refine ⟨?_, hg⟩
  simp only [runStep]
  split
  · split
    · split <;> simp
    · simp
  · split
    · simp
    · split
      · simp
      · rename_i tl htl
        split
        · simp
        · split
          · rename_i hparse
            have hx := hp tl htl
            rw [hparse] at hx
            simp at hx
          · split
            · split
              · rename_i hgate hzero
                exact absurd hzero (by have h6 := hg _ hgate; omega)
              · split <;> simp
            · simp

/-- C10 witness: with warmup 60s and interval 30s the gate threshold is 2,
and the pass on the parseable qExceed item returns a value. -/
theorem C10_witness : (runStep cfgHop 1000 hopRec0 qExceed).isSome = true :=
  (C10_thm cfgHop 1000 hopRec0 qExceed (by norm_num [cfgHop])
    (by norm_num [cfgHop])
    (fun tl htl => by
      have h : tl = "01:00:00" := by
        have h2 : qExceed.timeleft = some "01:00:00" := rfl
        rw [h2] at htl
        exact (Option.some.inj htl).symm
      subst h
      simp +decide [hms_to_secs, mapParsePyFloat, parsePyFloat, splitOnChar,
        digitsToNat, digitsToNatAux, digitVal])).1

/-- C6 (amended): the reap check is independent of the sample-accumulation
and hopelessness branches but not of the earlier short-circuiting ones:
for every tracked item with a matching queue record that reaches the
sampling stage (no error, not finished-and-failed-to-import, timeleft
present, size within bound) on a pass that returns, if the item's age
exceeds reap_interval_secs then the scheduled actions end with the reap
remediation — clear the blocklist scoped to the owning media id, then a
manual search — preceded by at most the hopelessness blocklist+redownload
request of the same pass. -/
theorem C6_amended (cfg : MonitorConfig) (now : ℚ) (m m2 : MovieRecord)
    (q : QueueResource) (acts : List RemediationAction)
    (he : q.hasErrorB = false)
    (hfi : (q.isFinishedB && q.failedToImportB) = false)
    (htl : q.timeleft.isSome = true)
    (hsz : ¬ q.size > cfg.max_media_size_bytes)
    (hreap : now - timeStampCreateIso now q.added > cfg.reap_interval_secs)
    (hrun : runStep cfg now m q = some (m2, acts)) :
    acts = reapMedia q
    ∨ acts = removeMediaFromQueue q.id true true true false :: reapMedia q := by
  obtain ⟨tl, htl2⟩ := Option.isSome_iff_exists.mp htl
  simp only [runStep, he, hfi, htl2, Bool.false_eq_true, if_false] at hrun
  rw [if_neg hsz, if_pos hreap] at hrun
  cases hparse : hms_to_secs tl with
  | none => simp [hparse] at hrun
  | some t =>
    simp only [hparse] at hrun
    by_cases hgate :
        hopelessWarmupGate cfg (sampleUpdate cfg t m).num_timeleft_samples = true
    · rw [if_pos hgate] at hrun
      by_cases hz : (sampleUpdate cfg t m).num_timeleft_samples = 0
      · rw [if_pos hz] at hrun
        simp at hrun
      · rw [if_neg hz] at hrun
        by_cases hr :
            ((sampleUpdate cfg t m).num_timeleft_samples_exceeding_max : ℚ)
                / ((sampleUpdate cfg t m).num_timeleft_samples : ℚ)
              > cfg.hopeless_threshold
        · rw [if_pos hr] at hrun
          obtain ⟨h1, h2⟩ := by simpa using hrun
          exact Or.inr h2.symm
        · rw [if_neg hr] at hrun
          obtain ⟨h1, h2⟩ := by simpa using hrun
          exact Or.inl h2.symm
    · rw [if_neg hgate] at hrun
      obtain ⟨h1, h2⟩ := by simpa using hrun
      exact Or.inl h2.symm

/-- The action list of the pass in which both the hopelessness and the
reap remediation fire for the same item. -/
def actsBothW : List RemediationAction :=
  [removeMediaFromQueue 5 true true true false,
   RemediationAction.clearBlocklist (some 6),
   RemediationAction.manualSearch 6]

/-- The record recBoth after the exceeding sample of that pass. -/
def recBothAfter : MovieRecord :=
  { recBoth with num_timeleft_samples_exceeding_max := 2 }

/-- C6 witness: on a pass where the hopelessness branch fires (warmup
count 1 met, ratio 2 over 1 above one half) and the item is 1000s old
against a 100s reap age, the scheduled actions are the hopelessness
request followed by the reap pair. -/
theorem C6_witness :
    actsBothW = reapMedia qExceedOld
    ∨ actsBothW
      = removeMediaFromQueue qExceedOld.id true true true false
        :: reapMedia qExceedOld :=
  C6_amended cfgBoth 1000 recBoth recBothAfter qExceedOld actsBothW
    (by decide) (by decide) (by decide)
    (by norm_num [qExceedOld, qExceed, cfgBoth])
    (by norm_num [timeStampCreateIso, qExceedOld, qExceed, cfgBoth])
    (by
      simp +decide [runStep, qExceedOld, qExceed, cfgBoth, recBoth,
        recBothAfter, actsBothW, QueueResource.hasErrorB,
        QueueResource.isFinishedB, QueueResource.failedToImportB,
        hms_to_secs, mapParsePyFloat, parsePyFloat, splitOnChar, digitsToNat,
        digitsToNatAux, digitVal, sampleUpdate, hopelessWarmupGate,
        timeStampCreateIso, reapMedia, removeMediaFromQueue]
      try norm_num)

/-- releaseComp decides the strict lexicographic order on the key pair
(seeder count, quality resolution). -/
theorem releaseComp_iff (a b : ReleaseResource) :
    releaseComp a b = true ↔
      (a.seeders.getD 0 < b.seeders.getD 0
        ∨ (a.seeders.getD 0 = b.seeders.getD 0
            ∧ a.quality.quality.resolution < b.quality.quality.resolution)) := by
  simp [releaseComp]

/-- The negation of releaseComp characterised on the key pair. -/
theorem releaseComp_false_iff (a b : ReleaseResource) :
    releaseComp a b = false ↔
      ¬ (a.seeders.getD 0 < b.seeders.getD 0
        ∨ (a.seeders.getD 0 = b.seeders.getD 0
            ∧ a.quality.quality.resolution < b.quality.quality.resolution)) := by
  rw [← releaseComp_iff]
  cases releaseComp a b <;> simp

/-- The strict lexicographic order is irreflexive. -/
theorem releaseComp_irrefl (a : ReleaseResource) : releaseComp a a = false := by
  rw [releaseComp_false_iff]; omega

/-- The strict lexicographic order is asymmetric. -/
theorem releaseComp_asymm {a b : ReleaseResource}
    (h : releaseComp a b = true) : releaseComp b a = false := by
  rw [releaseComp_iff] at h; rw [releaseComp_false_iff]; omega

/-- The strict lexicographic order is transitive. -/
theorem releaseComp_trans {a b c : ReleaseResource}
    (h1 : releaseComp a b = true) (h2 : releaseComp b c = true) :
    releaseComp a c = true := by
  rw [releaseComp_iff] at h1 h2 ⊢; omega

/-- Not-below is transitive for the lexicographic key. -/
theorem releaseComp_not_trans {a b c : ReleaseResource}
    (h1 : releaseComp a b = false) (h2 : releaseComp b c = false) :
    releaseComp a c = false := by
  rw [releaseComp_false_iff] at h1 h2 ⊢; omega

/-- From b at most a and a strictly below c follows b strictly below c. -/
theorem releaseComp_le_lt {a b c : ReleaseResource}
    (h1 : releaseComp a b = false) (h2 : releaseComp a c = true) :
    releaseComp b c = true := by
  rw [releaseComp_false_iff] at h1
  rw [releaseComp_iff] at h2 ⊢
  omega

/-- The best-candidate fold of search_movie_manually starting from a held
candidate a: the loop always returns a candidate b which is not below a,
is not strictly below any surviving candidate of the remaining list, and
is either a itself or a survivor of the list that strictly beats a and
every survivor preceding it. -/
theorem foldl_selectStep_spec (q : QueueResource) :
    ∀ (rs : List ReleaseResource) (a : ReleaseResource),
      ∃ b, List.foldl (selectStep q) (some a) rs = some b
        ∧ releaseComp b a = false
        ∧ (∀ r ∈ rs, releaseSurvives q r = true → releaseComp b r = false)
        ∧ (b = a
           ∨ (releaseSurvives q b = true ∧ releaseComp a b = true
              ∧ ∃ l1 l2, rs = l1 ++ b :: l2
                ∧ ∀ r ∈ l1, releaseSurvives q r = true → releaseComp r b = true)) := by
  intro rs
  induction rs with
  | nil =>
    intro a
    exact ⟨a, rfl, releaseComp_irrefl a, by simp, Or.inl rfl⟩
  | cons r rs ih =>
    intro a
    cases hs : releaseSurvives q r with
    | false =>
      obtain ⟨b, hfold, hba, hall, hdisj⟩ := ih a
      refine ⟨b, ?_, hba, ?_, ?_⟩
      · simpa [selectStep, hs] using hfold
      · intro x hx hxs
        rcases List.mem_cons.mp hx with rfl | hx2
        · rw [hs] at hxs; cases hxs
        · exact hall x hx2 hxs
      · rcases hdisj with rfl | ⟨hsurv, hcomp, l1, l2, hsplit, hl1⟩
        · exact Or.inl rfl
        · refine Or.inr ⟨hsurv, hcomp, r :: l1, l2, by simp [hsplit], ?_⟩
          intro x hx hxs
          rcases List.mem_cons.mp hx with rfl | hx2
          · rw [hs] at hxs; cases hxs
          · exact hl1 x hx2 hxs
    | true =>
      cases hc : releaseComp a r with
      | true =>
        obtain ⟨b, hfold, hbr, hall, hdisj⟩ := ih r
        refine ⟨b, ?_, ?_, ?_, ?_⟩
        · simpa [selectStep, hs, hc] using hfold
        · rcases hdisj with rfl | ⟨_, hcomp, _⟩
          · exact releaseComp_asymm hc
          · exact releaseComp_asymm (releaseComp_trans hc hcomp)
        · intro x hx hxs
          rcases List.mem_cons.mp hx with rfl | hx2
          · exact hbr
          · exact hall x hx2 hxs
        · rcases hdisj with rfl | ⟨hsurv, hcomp, l1, l2, hsplit, hl1⟩
          · exact Or.inr ⟨hs, hc, [], rs, rfl, by simp⟩
          · refine Or.inr ⟨hsurv, releaseComp_trans hc hcomp,
              r :: l1, l2, by simp [hsplit], ?_⟩
            intro x hx hxs
            rcases List.mem_cons.mp hx with rfl | hx2
            · exact hcomp
            · exact hl1 x hx2 hxs
      | false =>
        obtain ⟨b, hfold, hba, hall, hdisj⟩ := ih a
        refine ⟨b, ?_, hba, ?_, ?_⟩
        · simpa [selectStep, hs, hc] using hfold
        · intro x hx hxs
          rcases List.mem_cons.mp hx with rfl | hx2
          · exact releaseComp_not_trans hba hc
          · exact hall x hx2 hxs
        · rcases hdisj with rfl | ⟨hsurv, hcomp, l1, l2, hsplit, hl1⟩
          · exact Or.inl rfl
          · refine Or.inr ⟨hsurv, hcomp, r :: l1, l2, by simp [hsplit], ?_⟩
            intro x hx hxs
            rcases List.mem_cons.mp hx with rfl | hx2
            · exact releaseComp_le_lt hc hcomp
            · exact hl1 x hx2 hxs

/-- The selection loop started from no held candidate: it returns nothing
exactly when no candidate survives the filters, and any returned
candidate is a survivor of the list that no survivor strictly exceeds and
that strictly exceeds every survivor preceding it (so an equal-key later
survivor never replaces the held best). -/
theorem selectBest_spec (q : QueueResource) :
    ∀ rs : List ReleaseResource,
      (selectBest q rs = none ↔ ∀ r ∈ rs, releaseSurvives q r = false)
      ∧ (∀ b, selectBest q rs = some b →
          b ∈ rs ∧ releaseSurvives q b = true
          ∧ (∀ r ∈ rs, releaseSurvives q r = true → releaseComp b r = false)
          ∧ ∃ l1 l2, rs = l1 ++ b :: l2
              ∧ ∀ r ∈ l1, releaseSurvives q r = true → releaseComp r b = true) := by
  intro rs
  induction rs with
  | nil =>
    constructor
    · simp [selectBest]
    · intro b hb
      simp [selectBest] at hb
  | cons r rs ih =>
    cases hs : releaseSurvives q r with
    | true =>
      obtain ⟨b, hfold, hbr, hall, hdisj⟩ := foldl_selectStep_spec q rs r
      have hsel : selectBest q (r :: rs) = some b := by
        simpa [selectBest, selectStep, hs] using hfold
      constructor
      · rw [hsel]
        constructor
        · intro h; cases h
        · intro h
          have := h r (List.mem_cons_self r rs)
          rw [hs] at this; cases this
      · intro b2 hb2
        rw [hsel] at hb2
        have hbb := Option.some.inj hb2
        subst hbb
        rcases hdisj with hbe | ⟨hsurv2, hcomp, l1, l2, hsplit, hl1⟩
        · refine ⟨?_, ?_, ?_, [], rs, ?_, by simp⟩
          · rw [hbe]; exact List.mem_cons_self r rs
          · rw [hbe]; exact hs
          · intro x hx hxs
            rcases List.mem_cons.mp hx with rfl | hx2
            · exact hbr
            · exact hall x hx2 hxs
          · rw [hbe]; simp
        · refine ⟨List.mem_cons_of_mem r ?_, hsurv2, ?_,
            r :: l1, l2, by simp [hsplit], ?_⟩
          · rw [hsplit]
            exact List.mem_append_right l1 (List.mem_cons_self b l2)
          · intro x hx hxs
            rcases List.mem_cons.mp hx with rfl | hx2
            · exact hbr
            · exact hall x hx2 hxs
          · intro x hx hxs
            rcases List.mem_cons.mp hx with rfl | hx2
            · exact hcomp
            · exact hl1 x hx2 hxs
    | false =>
      obtain ⟨hnone, hsome⟩ := ih
      have hsel : selectBest q (r :: rs) = selectBest q rs := by
        simp [selectBest, selectStep, hs]
      constructor
      · rw [hsel, hnone]
        constructor
        · intro h x hx
          rcases List.mem_cons.mp hx with rfl | hx2
          · exact hs
          · exact h x hx2
        · intro h x hx
          exact h x (List.mem_cons_of_mem r hx)
      · intro b hb
        rw [hsel] at hb
        obtain ⟨hmem, hsurv, hall, l1, l2, hsplit, hl1⟩ := hsome b hb
        refine ⟨List.mem_cons_of_mem r hmem, hsurv, ?_,
          r :: l1, l2, by simp [hsplit], ?_⟩
        · intro x hx hxs
          rcases List.mem_cons.mp hx with rfl | hx2
          · rw [hs] at hxs; cases hxs
          · exact hall x hx2 hxs
        · intro x hx hxs
          rcases List.mem_cons.mp hx with rfl | hx2
          · rw [hs] at hxs; cases hxs
          · exact hl1 x hx2 hxs

/-- C5 (amended): given the release list fetched for one media item, the
selection loop keeps exactly the candidates passing every filter (guid
present, seeders present and nonzero, no blocklist-related or Unknown
Movie rejection, a language that is the unknown sentinel or one of the
original item's); if none survives, nothing is selected and no acquisition
request issues.  A selected candidate is a survivor no survivor strictly
exceeds under the lexicographic key (seeders, resolution), and it strictly
exceeds every survivor before it, so the currently held best wins ties;
the acquisition request carries its guid and indexer id — provided its
guid is a nonempty string, the empty guid failing the final truthiness
guard so that nothing is requested. -/
theorem C5_amended (q : QueueResource) (rs : List ReleaseResource) :
    ((∀ r ∈ rs, releaseSurvives q r = false) → manualSearchRequest q rs = none)
    ∧ (∀ b, selectBest q rs = some b →
        b ∈ rs ∧ releaseSurvives q b = true
        ∧ (∀ r ∈ rs, releaseSurvives q r = true → releaseComp b r = false)
        ∧ (∃ l1 l2, rs = l1 ++ b :: l2
            ∧ ∀ r ∈ l1, releaseSurvives q r = true → releaseComp r b = true)
        ∧ manualSearchRequest q rs
          = (match b.guid with
             | none => none
             | some g => if g = "" then none else some (g, b.indexerId))) := by
  obtain ⟨hnone, hsome⟩ := selectBest_spec q rs
  constructor
  · intro hall
    have h0 : selectBest q rs = none := hnone.mpr hall
    simp [manualSearchRequest, h0]
  · intro b hb
    obtain ⟨h1, h2, h3, l1, l2, h4, h5⟩ := hsome b hb
    exact ⟨h1, h2, h3, ⟨l1, l2, h4, h5⟩, by simp [manualSearchRequest, hb]⟩

/-- C5 witness: on the candidate pair of the specification's example —
relA with 5 seeders at 1080p in the item's language, relB with 10 seeders
at 720p in the unknown language — the selector acquires relB through its
guid and indexer id 2. -/
theorem C5_witness : manualSearchRequest qSel [relA, relB] = some ("gB", 2) := by
  have h := ((C5_amended qSel [relA, relB]).2 relB (by decide)).2.2.2.2
  rw [h]
  decide

end ArrScripts
